import Mathlib

/-!
# SkillSync front end: upload forms

A shallow embedding of the two React form components of the SkillSync front end,
`UploadResume` (`components/UploadResume.js`) and `AddJob` (`components/AddJob.js`).

* JavaScript values are an explicit datatype (`JSValue`), numbers are IEEE doubles
  given by sign, integer significand and binary exponent (`JSNumber`), so that
  `Number.prototype.toFixed` and the default number-to-string conversion are exact
  integer computations.
* An `async` handler is a `Proc`: a tree of state updates that suspends at each
  `await`; `try / catch / finally` is spelled out in the continuations.
* A mounted form is a `World`: the component state, the suspended handler runs and
  the log of HTTP requests issued so far.  The environment drives it by `Event`s.
-/

namespace SkillSync

/-! ## JavaScript values -/

/-- A JavaScript Number.  `fin neg m e` is the finite value `(-1)^neg * m * 2^e`; an IEEE
double has `m < 2^53`, `-1074 ≤ e ≤ 971`, and `2^52 ≤ m` unless `e = -1074`
(see `JSNumber.isDouble`).  `fin true 0 e` is negative zero. -/
inductive JSNumber where
  | nan
  | inf (neg : Bool)
  | fin (neg : Bool) (m : Nat) (e : Int)
deriving DecidableEq

/-- A JavaScript value as the forms meet them: `undefined`, and what `JSON.parse` yields.
An object is its own enumerable properties in enumeration order. -/
inductive JSValue where
  | undefined
  | null
  | bool (b : Bool)
  | num (x : JSNumber)
  | str (s : String)
  | arr (items : List JSValue)
  | obj (props : List (String × JSValue))

/-- The canonical double representation: significand below `2^53`, exponent in range,
and the significand normalised unless the exponent is the least one. -/
def JSNumber.isDouble : JSNumber → Bool
  | .nan => true
  | .inf _ => true
  | .fin _ m e =>
    decide (m < 2 ^ 53) && decide (-1074 ≤ e) && decide (e ≤ 971)
      && (decide (2 ^ 52 ≤ m) || decide (e = -1074))

/-- ToBoolean on a Number: `NaN`, `+0` and `-0` are falsy. -/
def JSNumber.truthy : JSNumber → Bool
  | .nan => false
  | .inf _ => true
  | .fin _ m _ => m != 0

/-- ToBoolean. -/
def JSValue.truthy : JSValue → Bool
  | .undefined => false
  | .null => false
  | .bool b => b
  | .num x => x.truthy
  | .str s => s != ""
  | .arr _ => true
  | .obj _ => true

/-- The JavaScript `a || b`. -/
def jsOr (a b : JSValue) : JSValue :=
  if a.truthy then a else b

/-- Own-property lookup in a property list; `undefined` when the key is absent. -/
def lookupProp : List (String × JSValue) → String → JSValue
  | [], _ => .undefined
  | (k, v) :: rest, name => if k = name then v else lookupProp rest name

/-- Property read `v.name` for a data property name that no built-in prototype defines
(`detail`, `matches`, `id`, ...): a TypeError (`none`) on `undefined` and `null`,
the own property of an object, `undefined` on every other value. -/
def JSValue.get (v : JSValue) (name : String) : Option JSValue :=
  match v with
  | .undefined => none
  | .null => none
  | .obj props => some (lookupProp props name)
  | _ => some .undefined

/-- Optional chaining `v?.name`: `undefined` when `v` is `undefined` or `null`. -/
def JSValue.optGet (v : JSValue) (name : String) : JSValue :=
  match v with
  | .undefined => .undefined
  | .null => .undefined
  | .obj props => lookupProp props name
  | _ => .undefined

/-! ## Number formatting -/

/-- Doubles the significand, lowering the exponent, until the significand reaches `2^52`. -/
def normalise : Nat → Nat → Int → JSNumber
  | 0, m, e => .fin false m e
  | fuel + 1, m, e => if 2 ^ 52 ≤ m then .fin false m e else normalise fuel (2 * m) (e - 1)

/-- The double with the value of a natural number below `2^53`, in canonical form. -/
def JSNumber.ofNat (n : Nat) : JSNumber :=
  if n = 0 then .fin false 0 (-1074) else normalise 53 n 0

/-- The integer nearest to `m * 2^e * 10^f`, the larger one when two are equally near
(step 11.a of `Number.prototype.toFixed`). -/
def roundScaled (m : Nat) (e : Int) (f : Nat) : Nat :=
  match e with
  | .ofNat k => m * 2 ^ k * 10 ^ f
  | .negSucc k => (2 * (m * 10 ^ f) + 2 ^ (k + 1)) / 2 ^ (k + 2)

/-- Whether `m * 2^e ≥ bound`. -/
def atLeast (m : Nat) (e : Int) (bound : Nat) : Bool :=
  match e with
  | .ofNat k => decide (bound ≤ m * 2 ^ k)
  | .negSucc k => decide (bound * 2 ^ (k + 1) ≤ m)

/-- Steps 11.b-11.c of `toFixed` for `f ≠ 0`: the digits of `n`, padded on the left with
zeros to `f + 1` characters, with a point before the last `f`. -/
def fixedDigits (n f : Nat) : List Char :=
  let digits := Nat.toDigits 10 n
  let padded := List.replicate (f + 1 - digits.length) '0' ++ digits
  padded.take (padded.length - f) ++ '.' :: padded.drop (padded.length - f)

/-- The rounding interval of the positive double `m * 2^e` and a power of ten `10^p`,
all scaled to natural numbers: `lo`, `hi` are the interval ends, `x` the double itself,
`unit` is `10^p`.  The ends round to the double exactly when `m` is even. -/
structure Scaled where
  lo : Nat
  hi : Nat
  x : Nat
  unit : Nat
  closed : Bool

/-- The scaled interval: in units of `2^-1076` for `p ≥ 0`, of `2^-1076 * 10^p` for `p < 0`.
The lower neighbour is half as far at the bottom of a binade. -/
def scaled (m : Nat) (e : Int) (p : Int) : Scaled :=
  let k := (e + 1076).toNat
  let x := m * 2 ^ k
  let up := 2 ^ (k - 1)
  let down := if m = 2 ^ 52 ∧ -1074 < e then 2 ^ (k - 2) else 2 ^ (k - 1)
  match p with
  | .ofNat q =>
    { lo := x - down, hi := x + up, x := x, unit := 10 ^ q * 2 ^ 1076, closed := m % 2 == 0 }
  | .negSucc q =>
    let t := 10 ^ (q + 1)
    { lo := (x - down) * t, hi := (x + up) * t, x := x * t, unit := 2 ^ 1076,
      closed := m % 2 == 0 }

/-- Whether the scaled value `v` rounds to the double. -/
def Scaled.inside (c : Scaled) (v : Nat) : Bool :=
  if c.closed then decide (c.lo ≤ v) && decide (v ≤ c.hi)
  else decide (c.lo < v) && decide (v < c.hi)

/-- The positive `s` with `s * 10^p` in the rounding interval that is nearest to the
double (the even one on a tie), if there is any. -/
def digitsAt (m : Nat) (e : Int) (p : Int) : Option Nat :=
  let c := scaled m e p
  let s0 := c.x / c.unit
  let below := decide (1 ≤ s0) && c.inside (s0 * c.unit)
  let above := c.inside ((s0 + 1) * c.unit)
  if below && above then
    let d0 := c.x - s0 * c.unit
    let d1 := (s0 + 1) * c.unit - c.x
    if d0 < d1 then some s0
    else if d1 < d0 then some (s0 + 1)
    else if s0 % 2 = 0 then some s0 else some (s0 + 1)
  else if below then some s0
  else if above then some (s0 + 1)
  else none

/-- Step 5 of `Number::toString`: the shortest decimal `s * 10^p` that rounds to the
double, found as the largest `p` (from `p` downwards) with such an `s`. -/
def shortest (m : Nat) (e : Int) : Nat → Int → Option (Nat × Int)
  | 0, _ => none
  | fuel + 1, p =>
    match digitsAt m e p with
    | some s => some (s, p)
    | none => shortest m e fuel (p - 1)

/-- Steps 6-10 of `Number::toString`: `s` has the digits, `n` places the decimal point
(the value is `0.d1d2...dk * 10^n`). -/
def formatDecimal (s : Nat) (n : Int) : List Char :=
  let digits := Nat.toDigits 10 s
  let k : Int := digits.length
  if -5 ≤ n ∧ n ≤ 21 then
    if k ≤ n then digits ++ List.replicate (n - k).toNat '0'
    else if 0 < n then digits.take n.toNat ++ '.' :: digits.drop n.toNat
    else '0' :: '.' :: (List.replicate (-n).toNat '0' ++ digits)
  else
    let ex := n - 1
    let sign := if 0 ≤ ex then '+' else '-'
    let tail := 'e' :: sign :: Nat.toDigits 10 ex.natAbs
    match digits with
    | [] => tail
    | [d] => d :: tail
    | d :: more => d :: '.' :: (more ++ tail)

/-- The ECMAScript `Number::toString(x, 10)`, what `String(x)` and a number rendered as a
React child show.  Exact on canonical doubles. -/
def numberToString : JSNumber → String
  | .nan => "NaN"
  | .inf neg => if neg then "-Infinity" else "Infinity"
  | .fin neg m e =>
    if m = 0 then "0"
    else
      match shortest m e 720 309 with
      | some (s, p) =>
        String.mk ((if neg then ['-'] else []) ++
          formatDecimal s (p + ((Nat.toDigits 10 s).length : Int)))
      | none => "NaN"

/-- The ECMAScript `Number.prototype.toFixed(f)` for `0 ≤ f ≤ 100`. -/
def JSNumber.toFixed (x : JSNumber) (f : Nat) : String :=
  match x with
  | .fin neg m e =>
    let sign := if neg && m != 0 then ['-'] else []
    if atLeast m e (10 ^ 21) then String.mk sign ++ numberToString (.fin false m e)
    else if f = 0 then String.mk (sign ++ Nat.toDigits 10 (roundScaled m e 0))
    else String.mk (sign ++ fixedDigits (roundScaled m e f) f)
  | _ => numberToString x

/-! ## Strings of values -/

mutual
/-- The ECMAScript `ToString` on the values of `JSValue`. -/
def JSValue.toStr : JSValue → String
  | .undefined => "undefined"
  | .null => "null"
  | .bool b => if b then "true" else "false"
  | .num x => numberToString x
  | .str s => s
  | .arr items => joinItems "," items
  | .obj _ => "[object Object]"
/-- The ECMAScript `Array.prototype.join` on the elements: `undefined` and `null` give the
empty string. -/
def joinItems (sep : String) : List JSValue → String
  | [] => ""
  | x :: rest =>
    let head :=
      match x with
      | .undefined => ""
      | .null => ""
      | v => v.toStr
    match rest with
    | [] => head
    | _ :: _ => head ++ sep ++ joinItems sep rest
end

/-- The method call `v.join(sep)`: a TypeError unless `v` is an array. -/
def JSValue.join (v : JSValue) (sep : String) : Option String :=
  match v with
  | .arr items => some (joinItems sep items)
  | _ => none

/-- The method call `v.toFixed(f)`: a TypeError unless `v` is a number. -/
def JSValue.toFixed (v : JSValue) (f : Nat) : Option String :=
  match v with
  | .num x => some (x.toFixed f)
  | _ => none

/-- One character of `QuoteJSONString`. -/
def quoteChar (c : Char) : List Char :=
  let bs := Char.ofNat 92
  if c = Char.ofNat 34 then [bs, Char.ofNat 34]
  else if c = bs then [bs, bs]
  else if c = Char.ofNat 8 then [bs, 'b']
  else if c = Char.ofNat 9 then [bs, 't']
  else if c = Char.ofNat 10 then [bs, 'n']
  else if c = Char.ofNat 12 then [bs, 'f']
  else if c = Char.ofNat 13 then [bs, 'r']
  else if c.toNat < 32 then
    [bs, 'u', '0', '0', Nat.digitChar (c.toNat / 16), Nat.digitChar (c.toNat % 16)]
  else [c]

/-- The ECMAScript `QuoteJSONString`. -/
def quoteJSONString (s : String) : String :=
  String.mk (Char.ofNat 34 :: (s.data.flatMap quoteChar ++ [Char.ofNat 34]))

/-- Whether a number is finite. -/
def JSNumber.isFinite : JSNumber → Bool
  | .fin _ _ _ => true
  | _ => false

mutual
/-- The ECMAScript `SerializeJSONProperty` with a non-empty gap `gap` at indentation
`indent`; `none` is `undefined`. -/
def serializeJSON (gap indent : String) : JSValue → Option String
  | .undefined => none
  | .null => some "null"
  | .bool b => some (if b then "true" else "false")
  | .num x => some (if x.isFinite then numberToString x else "null")
  | .str s => some (quoteJSONString s)
  | .arr items =>
    match serializeItems gap (indent ++ gap) items with
    | [] => some "[]"
    | parts =>
      some ("[\n" ++ (indent ++ gap) ++ String.intercalate (",\n" ++ (indent ++ gap)) parts
        ++ "\n" ++ indent ++ "]")
  | .obj props =>
    match serializeProps gap (indent ++ gap) props with
    | [] => some "\x7b\x7d"
    | parts =>
      some ("\x7b\n" ++ (indent ++ gap) ++ String.intercalate (",\n" ++ (indent ++ gap)) parts
        ++ "\n" ++ indent ++ "\x7d")
/-- The elements of an array, `undefined` serialised as `null`. -/
def serializeItems (gap indent : String) : List JSValue → List String
  | [] => []
  | x :: rest => (serializeJSON gap indent x).getD "null" :: serializeItems gap indent rest
/-- The members of an object, those with an `undefined` value left out. -/
def serializeProps (gap indent : String) : List (String × JSValue) → List String
  | [] => []
  | (k, v) :: rest =>
    match serializeJSON gap indent v with
    | none => serializeProps gap indent rest
    | some text => (quoteJSONString k ++ ": " ++ text) :: serializeProps gap indent rest
end

/-- The JavaScript `JSON.stringify(v, null, 2)`; `none` is `undefined`. -/
def jsonStringify2 (v : JSValue) : Option String :=
  serializeJSON "  " "" v

mutual
/-- The text React shows for a child value: nothing for `undefined`, `null` and booleans,
the string itself, a number through `Number::toString`, the elements of an array one
after the other; a plain object is not a valid child and makes rendering throw (`none`). -/
def reactText : JSValue → Option String
  | .undefined => some ""
  | .null => some ""
  | .bool _ => some ""
  | .num x => some (numberToString x)
  | .str s => some s
  | .arr items => reactTexts items
  | .obj _ => none
/-- The text of a list of children. -/
def reactTexts : List JSValue → Option String
  | [] => some ""
  | x :: rest =>
    match reactText x, reactTexts rest with
    | some a, some b => some (a ++ b)
    | _, _ => none
end

/-! ## Files, requests, responses -/

/-- A file picked in the file input; `text` is what `file.text()` decodes its bytes to. -/
structure File where
  name : String
  text : String
deriving DecidableEq

/-- The data argument of `axios.post`. -/
inductive Body where
  | formData (fields : List (String × File))
  | json (value : JSValue)

/-- One `axios.post(url, data, { headers: { "Content-Type": contentType } })` call. -/
structure Request where
  url : String
  body : Body
  contentType : String

/-- An axios response; only `data` is read by the forms. -/
structure Response where
  status : Nat
  data : JSValue

/-- A thrown value or promise rejection.  An `AxiosError` carries `response` when the
server answered; a `SyntaxError` of `JSON.parse` or a file read error has none. -/
structure Thrown where
  response : Option Response

/-- The JavaScript `err.response?.data?.detail`. -/
def Thrown.detail (err : Thrown) : JSValue :=
  match err.response with
  | none => .undefined
  | some r => r.data.optGet "detail"

/-! ## Component state and asynchronous handlers -/

/-- The four `useState` cells of a form (`file` is `jsonFile` in `AddJob`).
`file = none` stands for `null` (initial) and `undefined` (`files[0]` of an empty list). -/
structure State where
  file : Option File
  loading : Bool
  responseData : JSValue
  error : JSValue

/-- The state at mount: `useState(null)`, `useState(false)`, `useState(null)`, `useState("")`. -/
def State.init : State :=
  { file := none, loading := false, responseData := .null, error := .str "" }

/-- A state update or side effect without a result. -/
inductive Act where
  | setLoading (b : Bool)
  | setResponseData (v : JSValue)
  | setError (v : JSValue)
  | consoleError (err : Thrown)

/-- The effect of an action on the component state. -/
def Act.apply : Act → State → State
  | .setLoading b, s => { s with loading := b }
  | .setResponseData v, s => { s with responseData := v }
  | .setError v, s => { s with error := v }
  | .consoleError _, s => s

/-- An `async` function body: actions up to the next `await`, then a continuation that
receives how the awaited promise settled. -/
inductive Proc where
  | ret
  | act (a : Act) (k : Proc)
  | awaitText (f : File) (k : Except Thrown String → Proc)
  | awaitPost (r : Request) (k : Except Thrown Response → Proc)

/-- Runs a handler up to its next suspension: the state reached, the request log (an
`axios.post` call is logged when it is made) and the suspended rest, if any. -/
def runSync : Proc → State → List Request → State × List Request × Option Proc
  | .ret, s, log => (s, log, none)
  | .act a k, s, log => runSync k (a.apply s) log
  | .awaitText f k, s, log => (s, log, some (.awaitText f k))
  | .awaitPost r k, s, log => (s, log ++ [r], some (.awaitPost r k))

/-- A form component: its two event handlers. -/
structure Component where
  handleFileChange : List File → State → State
  handleUpload : State → Proc

/-! ## `UploadResume.js` -/

namespace UploadResume

/-- Lines 10-14: `setFile(e.target.files[0]); setResponseData(null); setError("")`. -/
def handleFileChange (files : List File) (s : State) : State :=
  { s with file := files.head?, responseData := .null, error := .str "" }

/-- The generic failure text of the resume form. -/
def fallbackMessage : String := "Error uploading file. Please try again."

/-- The text shown when no file is selected. -/
def noFileMessage : String := "Please select a file to upload."

/-- The `finally` block, line 45. -/
def finallyBlock : Proc :=
  .act (.setLoading false) .ret

/-- The `catch` block, lines 39-43, followed by `finally`. -/
def catchBlock (err : Thrown) : Proc :=
  .act (.consoleError err)
    (.act (.setError (jsOr err.detail (.str fallbackMessage))) finallyBlock)

/-- Lines 16-47, with `file` read from the state of the render that owns the handler. -/
def handleUpload (s : State) : Proc :=
  match s.file with
  | none => .act (.setError (.str noFileMessage)) .ret
  | some file =>
    .act (.setLoading true)
      (.act (.setError (.str ""))
        (.awaitPost
          { url := "http://localhost:8000/upload_resume",
            body := .formData [("file", file)],
            contentType := "multipart/form-data" }
          (fun settled =>
            match settled with
            | .ok response => .act (.setResponseData response.data) finallyBlock
            | .error err => catchBlock err)))

/-- The resume form. -/
def component : Component :=
  { handleFileChange := handleFileChange, handleUpload := handleUpload }

end UploadResume

/-! ## `AddJob.js` -/

namespace AddJob

/-- Lines 10-14: `setJsonFile(e.target.files[0]); setResponseData(null); setError("")`. -/
def handleFileChange (files : List File) (s : State) : State :=
  { s with file := files.head?, responseData := .null, error := .str "" }

/-- The generic failure text of the jobs form. -/
def fallbackMessage : String := "Invalid JSON file format or upload failed."

/-- The text shown when no file is selected. -/
def noFileMessage : String := "Please select a JSON file first."

/-- The `finally` block, line 42. -/
def finallyBlock : Proc :=
  .act (.setLoading false) .ret

/-- The `catch` block, lines 36-40, followed by `finally`. -/
def catchBlock (err : Thrown) : Proc :=
  .act (.consoleError err)
    (.act (.setError (jsOr err.detail (.str fallbackMessage))) finallyBlock)

/-- The `SyntaxError` thrown by `JSON.parse`: it has no `response` property. -/
def parseError : Thrown :=
  { response := none }

/-- Lines 16-44.  `jsonParse` is the platform's `JSON.parse`, `none` when it throws. -/
def handleUpload (jsonParse : String → Option JSValue) (s : State) : Proc :=
  match s.file with
  | none => .act (.setError (.str noFileMessage)) .ret
  | some jsonFile =>
    .act (.setLoading true)
      (.act (.setError (.str ""))
        (.awaitText jsonFile (fun read =>
          match read with
          | .error err => catchBlock err
          | .ok text =>
            match jsonParse text with
            | none => catchBlock parseError
            | some jobs =>
              .awaitPost
                { url := "http://localhost:8000/upload_jobs_json",
                  body := .json jobs,
                  contentType := "application/json" }
                (fun settled =>
                  match settled with
                  | .ok response => .act (.setResponseData response.data) finallyBlock
                  | .error err => catchBlock err))))

/-- The jobs form over a given `JSON.parse`. -/
def component (jsonParse : String → Option JSValue) : Component :=
  { handleFileChange := handleFileChange, handleUpload := handleUpload jsonParse }

end AddJob

/-! ## A mounted form and its environment -/

/-- A mounted form: component state, suspended handler runs, requests issued so far. -/
structure World where
  st : State
  pending : List Proc
  log : List Request

/-- The form right after mount. -/
def World.init : World :=
  { st := State.init, pending := [], log := [] }

/-- What the environment can do to a mounted form. -/
inductive Event where
  | fileChange (files : List File)
  | click
  | textLoaded (i : Nat)
  | textFailed (i : Nat) (err : Thrown)
  | postFulfilled (i : Nat) (response : Response)
  | postRejected (i : Nat) (err : Thrown)

/-- Runs `p` in `w` up to its next suspension and records the suspended rest. -/
def World.resume (w : World) (p : Proc) : World :=
  match runSync p w.st w.log with
  | (st, log, next) => { st := st, pending := w.pending ++ next.toList, log := log }

/-- One event.  `click` calls `handleUpload` whatever the state of the button; a settle
event on a run that is not waiting for it is impossible (`none`). -/
def step (c : Component) : Event → World → Option World
  | .fileChange files, w => some { w with st := c.handleFileChange files w.st }
  | .click, w => some (w.resume (c.handleUpload w.st))
  | .textLoaded i, w =>
    match w.pending.get? i with
    | some (.awaitText f k) =>
      some ({ w with pending := w.pending.eraseIdx i }.resume (k (.ok f.text)))
    | _ => none
  | .textFailed i err, w =>
    match w.pending.get? i with
    | some (.awaitText _ k) =>
      some ({ w with pending := w.pending.eraseIdx i }.resume (k (.error err)))
    | _ => none
  | .postFulfilled i response, w =>
    match w.pending.get? i with
    | some (.awaitPost _ k) =>
      some ({ w with pending := w.pending.eraseIdx i }.resume (k (.ok response)))
    | _ => none
  | .postRejected i err, w =>
    match w.pending.get? i with
    | some (.awaitPost _ k) =>
      some ({ w with pending := w.pending.eraseIdx i }.resume (k (.error err)))
    | _ => none

/-- The `disabled` attribute of the submit button: `disabled={loading}` in both forms. -/
def buttonDisabled (s : State) : Bool :=
  s.loading

/-- The label of the submit button: `loading ? "Uploading..." : "Upload"`. -/
def buttonLabel (s : State) : String :=
  if s.loading then "Uploading..." else "Upload"

/-- A sequence of events through `step`. -/
def run (c : Component) : List Event → World → Option World
  | [], w => some w
  | ev :: rest, w =>
    match step c ev w with
    | some w1 => run c rest w1
    | none => none

/-- The number of suspended runs waiting for an HTTP response. -/
def postsInFlight : List Proc → Nat
  | [] => 0
  | .awaitPost _ _ :: rest => postsInFlight rest + 1
  | _ :: rest => postsInFlight rest

/-! ## Rendering -/

/-- The JSX `cond && <element/>`: the element when `cond` is truthy, otherwise `cond`
itself is the child (React shows nothing for `null`, `false`, `""`, and `0` as text). -/
inductive Slot (α : Type) where
  | element (content : α)
  | child (v : JSValue)

/-- The JSX `error && <p>error</p>` of both forms (line 71 and line 69): the content of
the paragraph is the error value. -/
def errorSlot (s : State) : Slot JSValue :=
  if s.error.truthy then .element s.error else .child s.error

/-- A numeral without its minus sign, if it has one. -/
def unsigned (cs : List Char) : List Char :=
  match cs with
  | '-' :: rest => rest
  | _ => cs

/-- Whether a text is a decimal numeral with exactly three digits after the point:
an optional minus sign, one or more digits, a point, three digits. -/
def threeDecimalPlaces (t : String) : Bool :=
  let body := unsigned t.data
  match body.dropWhile Char.isDigit with
  | ['.', a, b, c] =>
    !(body.takeWhile Char.isDigit).isEmpty && a.isDigit && b.isDigit && c.isDigit
  | _ => false

/-- Whether a number is finite and below `bound` in absolute value. -/
def JSNumber.absBelow (x : JSNumber) (bound : Nat) : Bool :=
  match x with
  | .fin _ m e => !atLeast m e bound
  | _ => false

namespace UploadResume

/-- A body row of the match table: its React key and the children of its eight cells. -/
structure Row where
  key : JSValue
  cells : List JSValue

/-- Lines 104-113: the row of one element of `matches`; `none` when an expression
throws (a missing array or number under `join` or `toFixed`). -/
def renderRow (m : JSValue) : Option Row := do
  let id ← m.get "id"
  let title ← m.get "title"
  let description ← m.get "description"
  let skills ← (← m.get "skills").join ", "
  let matched ← (← m.get "matched_skills").join ", "
  let semantic ← (← m.get "semantic_score").toFixed 3
  let keyword ← m.get "keyword_score"
  let final ← (← m.get "final_score").toFixed 3
  pure { key := id,
         cells := [id, title, description, .str skills, .str matched, .str semantic,
                   keyword, .str final] }

/-- The callback of `map` applied to the elements in order. -/
def renderRows : List JSValue → Option (List Row)
  | [] => some []
  | m :: rest => do
    let row ← renderRow m
    let rows ← renderRows rest
    pure (row :: rows)

/-- Line 103: `responseData.matches.map(...)`, a TypeError unless it is an array. -/
def renderMatches (list : JSValue) : Option (List Row) :=
  match list with
  | .arr items => renderRows items
  | _ => none

/-- The result block, lines 74-119: the recommendation paragraph and the table body. -/
structure Result where
  recommendation : JSValue
  rows : List Row

/-- What the resume form shows. -/
structure View where
  disabled : Bool
  label : String
  error : Slot JSValue
  result : Slot Result

/-- Lines 49-123; `none` when rendering throws. -/
def render (s : State) : Option View :=
  if s.responseData.truthy then do
    let recommendation ← s.responseData.get "recommendation"
    let rows ← renderMatches (← s.responseData.get "matches")
    pure { disabled := buttonDisabled s, label := buttonLabel s, error := errorSlot s,
           result := .element { recommendation := recommendation, rows := rows } }
  else
    some { disabled := buttonDisabled s, label := buttonLabel s, error := errorSlot s,
           result := .child s.responseData }

end UploadResume

namespace AddJob

/-- What the jobs form shows; the response panel holds the text of its `pre` element,
`none` when `JSON.stringify` returns `undefined`. -/
structure View where
  disabled : Bool
  label : String
  error : Slot JSValue
  result : Slot (Option String)

/-- Lines 46-83. -/
def render (s : State) : View :=
  { disabled := buttonDisabled s, label := buttonLabel s, error := errorSlot s,
    result :=
      if s.responseData.truthy then .element (jsonStringify2 s.responseData)
      else .child s.responseData }

end AddJob

/-! ## The response of `/upload_resume` -/

/-- Modelled from the spec: the `JobMatch` entity of the data model (section 3), which
the backend defines and the front end only reads.  The identifier is any value. -/
structure JobMatch where
  id : JSValue
  title : String
  description : String
  skills : List String
  matched_skills : List String
  semantic_score : JSNumber
  keyword_score : JSNumber
  final_score : JSNumber

/-- The JSON object of a match. -/
def JobMatch.toJS (m : JobMatch) : JSValue :=
  .obj [("id", m.id), ("title", .str m.title), ("description", .str m.description),
        ("skills", .arr (m.skills.map .str)),
        ("matched_skills", .arr (m.matched_skills.map .str)),
        ("semantic_score", .num m.semantic_score),
        ("keyword_score", .num m.keyword_score),
        ("final_score", .num m.final_score)]

/-- Modelled from the spec: the response body of `POST /upload_resume` (section 6),
an object with a `recommendation` string and a `matches` array. -/
def resumeResponse (recommendation : String) (ms : List JobMatch) : JSValue :=
  .obj [("recommendation", .str recommendation), ("matches", .arr (ms.map JobMatch.toJS))]

/-- The row the spec asks for a match: the fields in the column order id, title,
description, skills, matched skills, semantic score, keyword score, final score; the
two lists joined by a comma and a blank, the semantic and final score through
`toFixed(3)`, the keyword score as the number itself. -/
def JobMatch.specCells (m : JobMatch) : List JSValue :=
  [m.id, .str m.title, .str m.description,
   .str (String.intercalate ", " m.skills),
   .str (String.intercalate ", " m.matched_skills),
   .str (m.semantic_score.toFixed 3),
   .num m.keyword_score,
   .str (m.final_score.toFixed 3)]

/-! ## Invariants of suspended runs -/

/-- Whether an action is a `setResponseData`. -/
def Act.setsResult : Act → Bool
  | .setResponseData _ => true
  | _ => false

mutual
/-- A handler body that changes the displayed result nowhere but in the run that
follows a fulfilled request. -/
def Silent : Proc → Prop
  | .ret => True
  | .act a k => a.setsResult = false ∧ Silent k
  | .awaitText _ k => ∀ r, Silent (k r)
  | .awaitPost _ k => (∀ err, Silent (k (.error err))) ∧ ∀ response, SilentRest (k (.ok response))
/-- A handler body whose suspended rest, if it suspends, is `Silent`. -/
def SilentRest : Proc → Prop
  | .ret => True
  | .act _ k => SilentRest k
  | .awaitText _ k => ∀ r, Silent (k r)
  | .awaitPost _ k => (∀ err, Silent (k (.error err))) ∧ ∀ response, SilentRest (k (.ok response))
end

/-- Every suspended run of the form is `Silent`. -/
def SilentInv (w : World) : Prop :=
  ∀ p ∈ w.pending, Silent p

/-- Whether an event is a file selection or the fulfilment of a request. -/
def Event.mayChangeResult : Event → Bool
  | .fileChange _ => true
  | .postFulfilled _ _ => true
  | _ => false

/-! ## Sample data -/

/-- A `JSON.parse` for sample runs: on the text `[]` it returns the empty array, as the
platform's does, and it throws on `oops`; the sample runs read no other text. -/
def sampleParse (text : String) : Option JSValue :=
  if text = "[]" then some (.arr []) else none

/-- A resume file. -/
def sampleResume : File :=
  { name := "cv.pdf", text := "Ten years of Python." }

/-- A jobs file holding the empty JSON array. -/
def sampleJobs : File :=
  { name := "jobs.json", text := "[]" }

/-- A jobs file that is not JSON. -/
def brokenJobs : File :=
  { name := "jobs.json", text := "oops" }

/-- A match with scores `0.8125`, `1` and `0.90625`. -/
def sampleMatch : JobMatch :=
  { id := .num (JSNumber.ofNat 7), title := "Backend Engineer", description := "APIs",
    skills := ["python", "sql"], matched_skills := ["python"],
    semantic_score := .fin false (13 * 2 ^ 49) (-53),
    keyword_score := JSNumber.ofNat 1,
    final_score := .fin false (29 * 2 ^ 48) (-53) }

/-- A match with scores `1e21`, `1` and `0.5`. -/
def largeMatch : JobMatch :=
  { id := .num (JSNumber.ofNat 8), title := "Data Engineer", description := "ETL",
    skills := ["sql"], matched_skills := [],
    semantic_score := .fin false (5 ^ 21 * 2 ^ 4) 17,
    keyword_score := JSNumber.ofNat 1,
    final_score := .fin false (2 ^ 52) (-53) }

/-! ## Theorems -/

set_option maxRecDepth 100000
set_option exponentiation.threshold 5000

/-! ### The busy flag -/

theorem Act.apply_responseData (a : Act) (s : State) (h : a.setsResult = false) :
    (a.apply s).responseData = s.responseData := by
  cases a <;> first | rfl | cases h

theorem runSync_silentRest (p : Proc) : ∀ (s : State) (log : List Request),
    SilentRest p → ∀ q, (runSync p s log).2.2 = some q → Silent q := by
  induction p with
  | ret => intro s log _ q hq; cases hq
  | act a k ih => intro s log h q hq; exact ih _ _ (by simpa [SilentRest] using h) q hq
  | awaitText f k _ =>
    intro s log h q hq
    simp only [runSync, Option.some.injEq] at hq
    subst hq
    simpa [Silent, SilentRest] using h
  | awaitPost r k _ =>
    intro s log h q hq
    simp only [runSync, Option.some.injEq] at hq
    subst hq
    simpa [Silent, SilentRest] using h

theorem runSync_silent (p : Proc) : ∀ (s : State) (log : List Request),
    Silent p → (runSync p s log).1.responseData = s.responseData
      ∧ ∀ q, (runSync p s log).2.2 = some q → Silent q := by
  induction p with
  | ret => intro s log _; exact ⟨rfl, fun q hq => by cases hq⟩
  | act a k ih =>
    intro s log h
    simp only [Silent] at h
    have := ih (a.apply s) log h.2
    simp only [runSync]
    rw [Act.apply_responseData a s h.1] at this
    exact this
  | awaitText f k _ =>
    intro s log h
    refine ⟨rfl, fun q hq => ?_⟩
    simp only [runSync, Option.some.injEq] at hq
    subst hq
    exact h
  | awaitPost r k _ =>
    intro s log h
    refine ⟨rfl, fun q hq => ?_⟩
    simp only [runSync, Option.some.injEq] at hq
    subst hq
    exact h

theorem resume_silent (w : World) (p : Proc) (hw : SilentInv w) (hp : Silent p) :
    SilentInv (w.resume p) ∧ (w.resume p).st.responseData = w.st.responseData := by
  have := runSync_silent p w.st w.log hp
  unfold World.resume SilentInv
  refine ⟨?_, this.1⟩
  intro q hq
  simp only [List.mem_append, Option.mem_toList, Option.mem_def] at hq
  rcases hq with hq | hq
  · exact hw q hq
  · exact this.2 q hq

theorem resume_silentRest (w : World) (p : Proc) (hw : SilentInv w) (hp : SilentRest p) :
    SilentInv (w.resume p) := by
  have := runSync_silentRest p w.st w.log hp
  unfold World.resume SilentInv
  intro q hq
  simp only [List.mem_append, Option.mem_toList, Option.mem_def] at hq
  rcases hq with hq | hq
  · exact hw q hq
  · exact this q hq

theorem silentInv_erase (w : World) (i : Nat) (hw : SilentInv w) :
    SilentInv { w with pending := w.pending.eraseIdx i } := by
  intro p hp
  exact hw p (List.mem_of_mem_eraseIdx hp)

theorem step_silent (c : Component) (hU : ∀ s, Silent (c.handleUpload s))
    (ev : Event) (w w1 : World) (hw : SilentInv w) (h : step c ev w = some w1) :
    SilentInv w1 ∧ (ev.mayChangeResult = false → w1.st.responseData = w.st.responseData) := by
  cases ev with
  | fileChange files =>
    simp only [step, Option.some.injEq] at h
    subst h
    exact ⟨hw, fun h => by cases h⟩
  | click =>
    simp only [step, Option.some.injEq] at h
    subst h
    have := resume_silent w _ hw (hU w.st)
    exact ⟨this.1, fun _ => this.2⟩
  | textLoaded i =>
    simp only [step] at h
    split at h
    · rename_i f k hget
      simp only [Option.some.injEq] at h
      subst h
      have hk : Silent (.awaitText f k) := hw _ (List.get?_mem hget)
      have := resume_silent _ _ (silentInv_erase w i hw) (hk (.ok f.text))
      exact ⟨this.1, fun _ => this.2⟩
    · cases h
  | textFailed i err =>
    simp only [step] at h
    split at h
    · rename_i f k hget
      simp only [Option.some.injEq] at h
      subst h
      have hk : Silent (.awaitText f k) := hw _ (List.get?_mem hget)
      have := resume_silent _ _ (silentInv_erase w i hw) (hk (.error err))
      exact ⟨this.1, fun _ => this.2⟩
    · cases h
  | postFulfilled i response =>
    simp only [step] at h
    split at h
    · rename_i r k hget
      simp only [Option.some.injEq] at h
      subst h
      have hk : Silent (.awaitPost r k) := hw _ (List.get?_mem hget)
      exact ⟨resume_silentRest _ _ (silentInv_erase w i hw) (hk.2 response), fun h => by cases h⟩
    · cases h
  | postRejected i err =>
    simp only [step] at h
    split at h
    · rename_i r k hget
      simp only [Option.some.injEq] at h
      subst h
      have hk : Silent (.awaitPost r k) := hw _ (List.get?_mem hget)
      have := resume_silent _ _ (silentInv_erase w i hw) (hk.1 err)
      exact ⟨this.1, fun _ => this.2⟩
    · cases h

theorem run_silent (c : Component) (hU : ∀ s, Silent (c.handleUpload s))
    (evs : List Event) : ∀ (w w1 : World), SilentInv w → run c evs w = some w1 → SilentInv w1 := by
  induction evs with
  | nil => intro w w1 hw h; simp only [run, Option.some.injEq] at h; subst h; exact hw
  | cons ev rest ih =>
    intro w w1 hw h
    simp only [run] at h
    cases hstep : step c ev w with
    | none => rw [hstep] at h; cases h
    | some w2 =>
      rw [hstep] at h
      exact ih w2 w1 (step_silent c hU ev w w2 hw hstep).1 h

theorem resumeUpload_silent (s : State) :
    Silent (UploadResume.handleUpload s) := by
  unfold UploadResume.handleUpload
  cases s.file with
  | none => simp [Silent, Act.setsResult]
  | some f =>
    simp [Silent, SilentRest, Act.setsResult, UploadResume.catchBlock, UploadResume.finallyBlock]

theorem jobsUpload_silent (jsonParse : String → Option JSValue) (s : State) :
    Silent (AddJob.handleUpload jsonParse s) := by
  unfold AddJob.handleUpload
  cases s.file with
  | none => simp [Silent, Act.setsResult]
  | some f =>
    simp only [Silent, Act.setsResult, true_and]
    intro r
    cases r with
    | error err => simp [Silent, Act.setsResult, AddJob.catchBlock, AddJob.finallyBlock]
    | ok text =>
      simp only
      cases jsonParse text with
      | none => simp [Silent, Act.setsResult, AddJob.catchBlock, AddJob.finallyBlock]
      | some jobs =>
        simp [Silent, SilentRest, Act.setsResult, AddJob.catchBlock, AddJob.finallyBlock]

/-! ### The match table -/

theorem intercalate_go_eq (sep : String) (xs : List String) : ∀ acc : String,
    String.intercalate.go acc sep xs = acc ++ String.intercalate.go "" sep xs := by
  induction xs with
  | nil => intro acc; simp [String.intercalate.go]
  | cons a rest ih =>
    intro acc
    simp only [String.intercalate.go]
    rw [ih (acc ++ sep ++ a), ih ("" ++ sep ++ a)]
    simp [String.append_assoc]

theorem joinItems_strings (sep : String) (xs : List String) :
    joinItems sep (xs.map JSValue.str) = String.intercalate sep xs := by
  cases xs with
  | nil => simp [joinItems, String.intercalate]
  | cons a rest =>
    simp only [String.intercalate]
    induction rest generalizing a with
    | nil => simp [joinItems, String.intercalate.go, JSValue.toStr]
    | cons b more ih =>
      have := ih b
      simp only [List.map_cons] at this ⊢
      rw [joinItems.eq_def]
      simp only [JSValue.toStr]
      rw [this, String.intercalate.go, intercalate_go_eq sep more b, intercalate_go_eq sep more (a ++ sep ++ b)]
      simp [String.append_assoc]

theorem renderRow_toJS (m : JobMatch) :
    UploadResume.renderRow m.toJS = some { key := m.id, cells := m.specCells } := by
  simp [UploadResume.renderRow, JobMatch.toJS, JSValue.get, lookupProp, JSValue.join,
    JSValue.toFixed, joinItems_strings, JobMatch.specCells]

theorem digitChar_isDigit (d : Nat) (h : d < 10) : (Nat.digitChar d).isDigit = true := by
  interval_cases d <;> decide

theorem toDigitsCore_isDigit (fuel : Nat) : ∀ (n : Nat) (ds : List Char),
    (∀ c ∈ ds, c.isDigit = true) → ∀ c ∈ Nat.toDigitsCore 10 fuel n ds, c.isDigit = true := by
  induction fuel with
  | zero => intro n ds h; simpa [Nat.toDigitsCore] using h
  | succ fuel ih =>
    intro n ds h
    have hd : ∀ c ∈ Nat.digitChar (n % 10) :: ds, c.isDigit = true := by
      intro c hc
      rcases List.mem_cons.mp hc with rfl | hc
      · exact digitChar_isDigit _ (Nat.mod_lt _ (by decide))
      · exact h c hc
    simp only [Nat.toDigitsCore]
    split
    · exact hd
    · exact ih _ _ hd

theorem toDigitsCore_length (fuel : Nat) : ∀ (n : Nat) (ds : List Char),
    ds.length + 1 ≤ (Nat.toDigitsCore 10 (fuel + 1) n ds).length := by
  induction fuel with
  | zero =>
    intro n ds
    rw [Nat.toDigitsCore]
    split
    · simp
    · simp [Nat.toDigitsCore]
  | succ fuel ih =>
    intro n ds
    rw [Nat.toDigitsCore]
    split
    · simp
    · have := ih (n / 10) (Nat.digitChar (n % 10) :: ds)
      simp only [List.length_cons] at this
      omega

theorem toDigits_isDigit (n : Nat) : ∀ c ∈ Nat.toDigits 10 n, c.isDigit = true :=
  toDigitsCore_isDigit _ _ _ (by simp)

theorem toDigits_length_pos (n : Nat) : 1 ≤ (Nat.toDigits 10 n).length := by
  have := toDigitsCore_length n n []
  simpa [Nat.toDigits] using this

theorem takeWhile_digits (whole rest : List Char) (h : ∀ c ∈ whole, c.isDigit = true) :
    (whole ++ '.' :: rest).takeWhile Char.isDigit = whole
      ∧ (whole ++ '.' :: rest).dropWhile Char.isDigit = '.' :: rest := by
  induction whole with
  | nil =>
    have : Char.isDigit '.' = false := by decide
    simp [List.takeWhile, List.dropWhile, this]
  | cons c more ih =>
    have hc : c.isDigit = true := h c (List.mem_cons_self _ _)
    have := ih (fun d hd => h d (List.mem_cons_of_mem _ hd))
    simp [List.takeWhile, List.dropWhile, hc, this]

theorem fixedDigits_shape (n : Nat) :
    ∃ whole a b c, fixedDigits n 3 = whole ++ ['.', a, b, c] ∧ whole ≠ []
      ∧ (∀ d ∈ whole, d.isDigit = true)
      ∧ a.isDigit = true ∧ b.isDigit = true ∧ c.isDigit = true := by
  have hlen := toDigits_length_pos n
  have hdig := toDigits_isDigit n
  simp only [fixedDigits]
  generalize Nat.toDigits 10 n = digits at hlen hdig
  generalize hp : List.replicate (3 + 1 - digits.length) '0' ++ digits = padded
  have hpd : ∀ d ∈ padded, d.isDigit = true := by
    intro d hd
    rw [← hp] at hd
    rcases List.mem_append.mp hd with hd | hd
    · rw [List.eq_of_mem_replicate hd]; decide
    · exact hdig d hd
  have hpl : 4 ≤ padded.length := by
    rw [← hp]; simp; omega
  have hdrop : (padded.drop (padded.length - 3)).length = 3 := by
    simp; omega
  have hdropd : ∀ d ∈ padded.drop (padded.length - 3), d.isDigit = true :=
    fun d hd => hpd d (List.mem_of_mem_drop hd)
  have htaked : ∀ d ∈ padded.take (padded.length - 3), d.isDigit = true :=
    fun d hd => hpd d (List.mem_of_mem_take hd)
  have htake : padded.take (padded.length - 3) ≠ [] := by
    intro h0
    have : (padded.take (padded.length - 3)).length = 0 := by rw [h0]; rfl
    simp at this
    omega
  generalize padded.drop (padded.length - 3) = frac at hdrop hdropd
  match frac, hdrop, hdropd with
  | [a, b, c], _, hall =>
    exact ⟨padded.take (padded.length - 3), a, b, c, rfl, htake, htaked,
      hall a (by simp), hall b (by simp), hall c (by simp)⟩

theorem threeDecimalPlaces_sign (neg : Bool) (n : Nat) :
    threeDecimalPlaces (String.mk ((if neg then ['-'] else []) ++ fixedDigits n 3)) = true := by
  obtain ⟨whole, a, b, c, hshape, hne, hwhole, ha, hb, hc⟩ := fixedDigits_shape n
  have hbody : unsigned ((if neg then ['-'] else []) ++ fixedDigits n 3)
      = whole ++ '.' :: [a, b, c] := by
    rw [hshape]
    cases neg with
    | true => rfl
    | false =>
      cases whole with
      | nil => exact absurd rfl hne
      | cons d more =>
        have hd : d.isDigit = true := hwhole d (List.mem_cons_self _ _)
        have hne2 : d ≠ '-' := by
          intro h; rw [h] at hd; revert hd; decide
        simp only [Bool.false_eq_true, ↓reduceIte, List.nil_append, List.cons_append]
        unfold unsigned
        split
        · rename_i rest heq
          simp only [List.cons.injEq] at heq
          exact absurd heq.1 hne2
        · rfl
  unfold threeDecimalPlaces
  simp only [hbody]
  have := takeWhile_digits whole [a, b, c] hwhole
  rw [this.1, this.2]
  simp [ha, hb, hc, hne]

theorem toFixed_three (x : JSNumber) (h : x.absBelow (10 ^ 21) = true) :
    threeDecimalPlaces (x.toFixed 3) = true := by
  cases x with
  | nan => cases h
  | inf neg => cases h
  | fin neg m e =>
    simp only [JSNumber.absBelow, Bool.not_eq_true'] at h
    simp only [JSNumber.toFixed, h]
    simp only [Bool.false_eq_true, ↓reduceIte, OfNat.ofNat_ne_zero]
    exact threeDecimalPlaces_sign (neg && m != 0) _

/-! ### The claims -/

/-- Claim C1, counterexample.  In both forms a result shown by an earlier successful
upload is still the displayed result after a later upload of the same file has failed:
the resume form then shows the new error text together with the earlier recommendation
and match table, and the jobs form keeps the earlier response next to the new error. -/
theorem C1_counterexample :
    ((run UploadResume.component
        [.fileChange [sampleResume], .click,
         .postFulfilled 0 { status := 200, data := resumeResponse "Strong fit" [sampleMatch] },
         .click, .postRejected 0 { response := none }] World.init).bind
        (fun w => UploadResume.render w.st)).map (fun v => (v.error, v.result))
      = some (.element (.str "Error uploading file. Please try again."),
              .element { recommendation := .str "Strong fit",
                         rows := [{ key := sampleMatch.id, cells := sampleMatch.specCells }] })
    ∧ (run (AddJob.component sampleParse)
        [.fileChange [sampleJobs], .click, .textLoaded 0,
         .postFulfilled 0 { status := 200, data := .obj [("inserted", .str "none")] },
         .click, .textLoaded 0, .postRejected 0 { response := none }] World.init).map
        (fun w => (w.st.error, w.st.responseData))
      = some (.str "Invalid JSON file format or upload failed.",
              .obj [("inserted", .str "none")]) := by
  constructor <;> rfl

/-- Claim C1, as amended.  In both forms, from every state with a file selected,
`handleUpload` clears the displayed error at once and leaves the displayed result as it
was; the result stays so while the run is suspended and after a failed request (which
sets the new error), and only the data of a fulfilled request replaces it. -/
theorem C1_upload_clears_error_keeps_result (jsonParse : String → Option JSValue)
    (s : State) (f : File) (log : List Request) (jobs : JSValue) (err : Thrown)
    (response : Response) (hf : s.file = some f) (hp : jsonParse f.text = some jobs) :
    ((run UploadResume.component [.click]
        { st := s, pending := [], log := log }).map (fun w => (w.st.error, w.st.responseData))
      = some (.str "", s.responseData)
    ∧ (run UploadResume.component [.click, .postRejected 0 err]
        { st := s, pending := [], log := log }).map (fun w => (w.st.error, w.st.responseData))
      = some (jsOr err.detail (.str "Error uploading file. Please try again."), s.responseData)
    ∧ (run UploadResume.component [.click, .postFulfilled 0 response]
        { st := s, pending := [], log := log }).map (fun w => (w.st.error, w.st.responseData))
      = some (.str "", response.data))
    ∧ ((run (AddJob.component jsonParse) [.click]
        { st := s, pending := [], log := log }).map (fun w => (w.st.error, w.st.responseData))
      = some (.str "", s.responseData)
    ∧ (run (AddJob.component jsonParse) [.click, .textLoaded 0]
        { st := s, pending := [], log := log }).map (fun w => (w.st.error, w.st.responseData))
      = some (.str "", s.responseData)
    ∧ (run (AddJob.component jsonParse) [.click, .textLoaded 0, .postRejected 0 err]
        { st := s, pending := [], log := log }).map (fun w => (w.st.error, w.st.responseData))
      = some (jsOr err.detail (.str "Invalid JSON file format or upload failed."),
              s.responseData)
    ∧ (run (AddJob.component jsonParse) [.click, .textLoaded 0, .postFulfilled 0 response]
        { st := s, pending := [], log := log }).map (fun w => (w.st.error, w.st.responseData))
      = some (.str "", response.data)) := by
  refine ⟨⟨?_, ?_, ?_⟩, ?_, ?_, ?_, ?_⟩
  · simp [run, step, UploadResume.component, UploadResume.handleUpload, hf, World.resume,
      runSync, Act.apply]
  · simp [run, step, UploadResume.component, UploadResume.handleUpload, hf, World.resume,
      runSync, Act.apply, UploadResume.catchBlock, UploadResume.finallyBlock,
      UploadResume.fallbackMessage]
  · simp [run, step, UploadResume.component, UploadResume.handleUpload, hf, World.resume,
      runSync, Act.apply, UploadResume.finallyBlock]
  · simp [run, step, AddJob.component, AddJob.handleUpload, hf, World.resume,
      runSync, Act.apply]
  · simp [run, step, AddJob.component, AddJob.handleUpload, hf, hp, World.resume,
      runSync, Act.apply]
  · simp [run, step, AddJob.component, AddJob.handleUpload, hf, hp, World.resume,
      runSync, Act.apply, AddJob.catchBlock, AddJob.finallyBlock, AddJob.fallbackMessage]
  · simp [run, step, AddJob.component, AddJob.handleUpload, hf, hp, World.resume,
      runSync, Act.apply, AddJob.finallyBlock]

/-- Claim C1, witness: the amended claim at a state that shows an earlier result, with the
sample jobs file, a rejection without response and a fulfilment with `null`. -/
theorem C1_witness :
    ((run UploadResume.component [.click]
        { st := { file := some sampleJobs, loading := false,
                  responseData := .str "earlier", error := .str "old" },
          pending := [], log := [] }).map (fun w => (w.st.error, w.st.responseData))
      = some (.str "", .str "earlier")
    ∧ (run UploadResume.component [.click, .postRejected 0 { response := none }]
        { st := { file := some sampleJobs, loading := false,
                  responseData := .str "earlier", error := .str "old" },
          pending := [], log := [] }).map (fun w => (w.st.error, w.st.responseData))
      = some (jsOr (Thrown.detail { response := none })
                (.str "Error uploading file. Please try again."), .str "earlier")
    ∧ (run UploadResume.component [.click, .postFulfilled 0 { status := 200, data := .null }]
        { st := { file := some sampleJobs, loading := false,
                  responseData := .str "earlier", error := .str "old" },
          pending := [], log := [] }).map (fun w => (w.st.error, w.st.responseData))
      = some (.str "", .null))
    ∧ ((run (AddJob.component sampleParse) [.click]
        { st := { file := some sampleJobs, loading := false,
                  responseData := .str "earlier", error := .str "old" },
          pending := [], log := [] }).map (fun w => (w.st.error, w.st.responseData))
      = some (.str "", .str "earlier")
    ∧ (run (AddJob.component sampleParse) [.click, .textLoaded 0]
        { st := { file := some sampleJobs, loading := false,
                  responseData := .str "earlier", error := .str "old" },
          pending := [], log := [] }).map (fun w => (w.st.error, w.st.responseData))
      = some (.str "", .str "earlier")
    ∧ (run (AddJob.component sampleParse)
        [.click, .textLoaded 0, .postRejected 0 { response := none }]
        { st := { file := some sampleJobs, loading := false,
                  responseData := .str "earlier", error := .str "old" },
          pending := [], log := [] }).map (fun w => (w.st.error, w.st.responseData))
      = some (jsOr (Thrown.detail { response := none })
                (.str "Invalid JSON file format or upload failed."), .str "earlier")
    ∧ (run (AddJob.component sampleParse)
        [.click, .textLoaded 0, .postFulfilled 0 { status := 200, data := .null }]
        { st := { file := some sampleJobs, loading := false,
                  responseData := .str "earlier", error := .str "old" },
          pending := [], log := [] }).map (fun w => (w.st.error, w.st.responseData))
      = some (.str "", .null)) :=
  C1_upload_clears_error_keeps_result sampleParse
    { file := some sampleJobs, loading := false, responseData := .str "earlier",
      error := .str "old" }
    sampleJobs [] (.arr []) { response := none } { status := 200, data := .null } rfl rfl

/-- Claim C2.  In both forms, when no file is selected, a call of `handleUpload` changes
nothing but the error, which becomes the form's "select a file" text and is shown: no
request is logged and no run is left suspended. -/
theorem C2_no_file_no_request (jsonParse : String → Option JSValue) (w : World)
    (h : w.st.file = none) :
    (step UploadResume.component .click w
        = some { st := { w.st with error := .str "Please select a file to upload." },
                 pending := w.pending, log := w.log }
      ∧ errorSlot { w.st with error := .str "Please select a file to upload." }
        = .element (.str "Please select a file to upload."))
    ∧ (step (AddJob.component jsonParse) .click w
        = some { st := { w.st with error := .str "Please select a JSON file first." },
                 pending := w.pending, log := w.log }
      ∧ errorSlot { w.st with error := .str "Please select a JSON file first." }
        = .element (.str "Please select a JSON file first.")) := by
  refine ⟨⟨?_, rfl⟩, ⟨?_, rfl⟩⟩
  · simp [step, UploadResume.component, UploadResume.handleUpload, h, World.resume, runSync,
      Act.apply, UploadResume.noFileMessage]
  · simp [step, AddJob.component, AddJob.handleUpload, h, World.resume, runSync,
      Act.apply, AddJob.noFileMessage]

/-- Claim C2, witness: the freshly mounted form has no file selected. -/
theorem C2_witness :
    World.init.st.file = none
    ∧ (step UploadResume.component .click World.init
        = some { st := { World.init.st with error := .str "Please select a file to upload." },
                 pending := World.init.pending, log := World.init.log }
      ∧ errorSlot { World.init.st with error := .str "Please select a file to upload." }
        = .element (.str "Please select a file to upload."))
    ∧ (step (AddJob.component sampleParse) .click World.init
        = some { st := { World.init.st with error := .str "Please select a JSON file first." },
                 pending := World.init.pending, log := World.init.log }
      ∧ errorSlot { World.init.st with error := .str "Please select a JSON file first." }
        = .element (.str "Please select a JSON file first.")) :=
  ⟨rfl, C2_no_file_no_request sampleParse World.init rfl⟩

/-- Claim C4.  In the jobs form, when the text of the selected file does not parse as
JSON, the run ends with an unchanged request log, no suspended run, the busy flag down
and the error `Invalid JSON file format or upload failed.`; a rejected request whose
`detail` is `undefined` ends with the same error text. -/
theorem C4_invalid_json (jsonParse : String → Option JSValue) (s : State) (f : File)
    (log : List Request) (hf : s.file = some f) (hp : jsonParse f.text = none) :
    (run (AddJob.component jsonParse) [.click]
        { st := s, pending := [], log := log }).map (fun w => w.log) = some log
    ∧ run (AddJob.component jsonParse) [.click, .textLoaded 0]
        { st := s, pending := [], log := log }
      = some { st := { s with loading := false,
                              error := .str "Invalid JSON file format or upload failed." },
               pending := [], log := log }
    ∧ ∀ (parse2 : String → Option JSValue) (g : File) (jobs : JSValue) (err : Thrown),
        parse2 g.text = some jobs → err.detail = .undefined →
        (run (AddJob.component parse2) [.click, .textLoaded 0, .postRejected 0 err]
          { st := { s with file := some g }, pending := [], log := log }).map
          (fun w => w.st.error)
        = some (.str "Invalid JSON file format or upload failed.") := by
  refine ⟨?_, ?_, ?_⟩
  · simp [run, step, AddJob.component, AddJob.handleUpload, hf, World.resume, runSync,
      Act.apply]
  · simp [run, step, AddJob.component, AddJob.handleUpload, hf, hp, World.resume,
      runSync, Act.apply, AddJob.catchBlock, AddJob.finallyBlock, jsOr,
      AddJob.fallbackMessage, AddJob.parseError, Thrown.detail, JSValue.truthy]
  · intro parse2 g jobs err hg hd
    simp [run, step, AddJob.component, AddJob.handleUpload, hg, hd, World.resume,
      runSync, Act.apply, AddJob.catchBlock, AddJob.finallyBlock, jsOr,
      AddJob.fallbackMessage, JSValue.truthy]

/-- Claim C4, witness: the sample file whose text is `oops`. -/
theorem C4_witness :
    (run (AddJob.component sampleParse) [.click]
        { st := { file := some brokenJobs, loading := false, responseData := .null,
                  error := .str "" },
          pending := [], log := [] }).map (fun w => w.log) = some []
    ∧ run (AddJob.component sampleParse) [.click, .textLoaded 0]
        { st := { file := some brokenJobs, loading := false, responseData := .null,
                  error := .str "" },
          pending := [], log := [] }
      = some { st := { file := some brokenJobs, loading := false, responseData := .null,
                       error := .str "Invalid JSON file format or upload failed." },
               pending := [], log := [] }
    ∧ ∀ (parse2 : String → Option JSValue) (g : File) (jobs : JSValue) (err : Thrown),
        parse2 g.text = some jobs → err.detail = .undefined →
        (run (AddJob.component parse2) [.click, .textLoaded 0, .postRejected 0 err]
          { st := { file := some g, loading := false, responseData := .null,
                    error := .str "" },
            pending := [], log := [] }).map (fun w => w.st.error)
        = some (.str "Invalid JSON file format or upload failed.") :=
  C4_invalid_json sampleParse
    { file := some brokenJobs, loading := false, responseData := .null, error := .str "" }
    brokenJobs [] rfl rfl

/-- Claim C5.  In the jobs form, when the text of the selected file parses as JSON to
`jobs`, the run logs exactly one request: a POST to
`http://localhost:8000/upload_jobs_json` with content type `application/json` whose body
is `jobs` itself, whatever value it is; the log is the same after the request is
fulfilled or rejected, and no run is left suspended then. -/
theorem C5_parsed_json_is_posted (jsonParse : String → Option JSValue) (s : State)
    (f : File) (log : List Request) (jobs : JSValue) (response : Response) (err : Thrown)
    (hf : s.file = some f) (hp : jsonParse f.text = some jobs) :
    (run (AddJob.component jsonParse) [.click]
        { st := s, pending := [], log := log }).map (fun w => w.log) = some log
    ∧ (run (AddJob.component jsonParse) [.click, .textLoaded 0]
        { st := s, pending := [], log := log }).map (fun w => (w.log, postsInFlight w.pending))
      = some (log ++ [{ url := "http://localhost:8000/upload_jobs_json",
                        body := .json jobs, contentType := "application/json" }], 1)
    ∧ (run (AddJob.component jsonParse) [.click, .textLoaded 0, .postFulfilled 0 response]
        { st := s, pending := [], log := log }).map (fun w => (w.log, w.pending.length))
      = some (log ++ [{ url := "http://localhost:8000/upload_jobs_json",
                        body := .json jobs, contentType := "application/json" }], 0)
    ∧ (run (AddJob.component jsonParse) [.click, .textLoaded 0, .postRejected 0 err]
        { st := s, pending := [], log := log }).map (fun w => (w.log, w.pending.length))
      = some (log ++ [{ url := "http://localhost:8000/upload_jobs_json",
                        body := .json jobs, contentType := "application/json" }], 0) := by
  refine ⟨?_, ?_, ?_, ?_⟩
  · simp [run, step, AddJob.component, AddJob.handleUpload, hf, World.resume, runSync,
      Act.apply]
  · simp [run, step, AddJob.component, AddJob.handleUpload, hf, hp, World.resume,
      runSync, Act.apply, postsInFlight]
  · simp [run, step, AddJob.component, AddJob.handleUpload, hf, hp, World.resume,
      runSync, Act.apply, AddJob.finallyBlock]
  · simp [run, step, AddJob.component, AddJob.handleUpload, hf, hp, World.resume,
      runSync, Act.apply, AddJob.catchBlock, AddJob.finallyBlock]

/-- Claim C5, witness: the sample file whose text is `[]`, a JSON value that is no
object. -/
theorem C5_witness :
    (run (AddJob.component sampleParse) [.click]
        { st := { file := some sampleJobs, loading := false, responseData := .null,
                  error := .str "" },
          pending := [], log := [] }).map (fun w => w.log) = some []
    ∧ (run (AddJob.component sampleParse) [.click, .textLoaded 0]
        { st := { file := some sampleJobs, loading := false, responseData := .null,
                  error := .str "" },
          pending := [], log := [] }).map (fun w => (w.log, postsInFlight w.pending))
      = some ([] ++ [{ url := "http://localhost:8000/upload_jobs_json",
                       body := .json (.arr []), contentType := "application/json" }], 1)
    ∧ (run (AddJob.component sampleParse)
        [.click, .textLoaded 0, .postFulfilled 0 { status := 200, data := .null }]
        { st := { file := some sampleJobs, loading := false, responseData := .null,
                  error := .str "" },
          pending := [], log := [] }).map (fun w => (w.log, w.pending.length))
      = some ([] ++ [{ url := "http://localhost:8000/upload_jobs_json",
                       body := .json (.arr []), contentType := "application/json" }], 0)
    ∧ (run (AddJob.component sampleParse)
        [.click, .textLoaded 0, .postRejected 0 { response := none }]
        { st := { file := some sampleJobs, loading := false, responseData := .null,
                  error := .str "" },
          pending := [], log := [] }).map (fun w => (w.log, w.pending.length))
      = some ([] ++ [{ url := "http://localhost:8000/upload_jobs_json",
                       body := .json (.arr []), contentType := "application/json" }], 0) :=
  C5_parsed_json_is_posted sampleParse
    { file := some sampleJobs, loading := false, responseData := .null, error := .str "" }
    sampleJobs [] (.arr []) { status := 200, data := .null } { response := none } rfl rfl

/-- Claim C7, counterexample.  A match with semantic score `1e21`, keyword score `1` and
final score `0.5`, all doubles: its row shows `1e+21`, `1` and `0.500` in the three score
cells, and neither `1e+21` nor `1` is a numeral with three decimal places. -/
theorem C7_counterexample :
    (largeMatch.semantic_score.isDouble && largeMatch.keyword_score.isDouble
      && largeMatch.final_score.isDouble) = true
    ∧ (UploadResume.renderRow largeMatch.toJS).map (fun row => row.cells.map reactText)
      = some [some "8", some "Data Engineer", some "ETL", some "sql", some "",
              some "1e+21", some "1", some "0.500"]
    ∧ threeDecimalPlaces "1e+21" = false
    ∧ threeDecimalPlaces "1" = false := by
  refine ⟨by decide, by rfl, by decide, by decide⟩

/-- Claim C7, as amended.  In the row of a match the semantic score and the final score
are shown through `toFixed(3)`, which is a numeral with exactly three decimal places
when the score is finite and below `10^21` in absolute value; the keyword score is shown
as the number itself, in the default number format. -/
theorem C7_scores_three_decimals (m : JobMatch)
    (hs : m.semantic_score.absBelow (10 ^ 21) = true)
    (hf : m.final_score.absBelow (10 ^ 21) = true) :
    (UploadResume.renderRow m.toJS).map
        (fun row => (row.cells.get? 5, row.cells.get? 6, row.cells.get? 7))
      = some (some (.str (m.semantic_score.toFixed 3)), some (.num m.keyword_score),
              some (.str (m.final_score.toFixed 3)))
    ∧ threeDecimalPlaces (m.semantic_score.toFixed 3) = true
    ∧ threeDecimalPlaces (m.final_score.toFixed 3) = true
    ∧ reactText (.num m.keyword_score) = some (numberToString m.keyword_score) := by
  refine ⟨?_, toFixed_three _ hs, toFixed_three _ hf, rfl⟩
  rw [renderRow_toJS]
  rfl

/-- Claim C7, witness: the sample match, with scores `0.8125`, `1` and `0.90625`. -/
theorem C7_witness :
    (UploadResume.renderRow sampleMatch.toJS).map
        (fun row => (row.cells.get? 5, row.cells.get? 6, row.cells.get? 7))
      = some (some (.str (sampleMatch.semantic_score.toFixed 3)),
              some (.num sampleMatch.keyword_score),
              some (.str (sampleMatch.final_score.toFixed 3)))
    ∧ threeDecimalPlaces (sampleMatch.semantic_score.toFixed 3) = true
    ∧ threeDecimalPlaces (sampleMatch.final_score.toFixed 3) = true
    ∧ reactText (.num sampleMatch.keyword_score)
      = some (numberToString sampleMatch.keyword_score) :=
  C7_scores_three_decimals sampleMatch (by decide) (by decide)

/-- Claim C8, counterexample.  The server answers a successful jobs upload with `null`:
the form renders no response panel, although `JSON.stringify(null, null, 2)` is the
text `null`. -/
theorem C8_counterexample :
    (run (AddJob.component sampleParse)
        [.fileChange [sampleJobs], .click, .textLoaded 0,
         .postFulfilled 0 { status := 200, data := .null }] World.init).map
        (fun w => (AddJob.render w.st).result)
      = some (.child .null)
    ∧ jsonStringify2 .null = some "null"
    ∧ (Slot.child .null : Slot (Option String)) ≠ .element (jsonStringify2 .null) := by
  refine ⟨by rfl, by rfl, ?_⟩
  intro h
  cases h

/-- Claim C8, as amended.  In the jobs form, after a fulfilled request, the response
panel is rendered exactly when the response data is truthy, and then it shows
`JSON.stringify(data, null, 2)`, which is a text; for falsy data (`null`, `false`, `0`,
the empty string) there is no panel and the data itself is the React child. -/
theorem C8_truthy_response_is_printed (jsonParse : String → Option JSValue) (s : State)
    (f : File) (log : List Request) (jobs : JSValue) (response : Response)
    (hf : s.file = some f) (hp : jsonParse f.text = some jobs) :
    (run (AddJob.component jsonParse) [.click, .textLoaded 0, .postFulfilled 0 response]
        { st := s, pending := [], log := log }).map (fun w => (AddJob.render w.st).result)
      = some (if response.data.truthy then .element (jsonStringify2 response.data)
              else .child response.data)
    ∧ (response.data.truthy = false ∨ ∃ text, jsonStringify2 response.data = some text) := by
  constructor
  · simp [run, step, AddJob.component, AddJob.handleUpload, hf, hp, World.resume,
      runSync, Act.apply, AddJob.finallyBlock, AddJob.render]
  · cases hd : response.data with
    | undefined => left; rfl
    | null => left; rfl
    | bool b => right; exact ⟨_, rfl⟩
    | num x => right; exact ⟨_, rfl⟩
    | str t => right; exact ⟨_, rfl⟩
    | arr items =>
      right
      simp only [jsonStringify2, serializeJSON]
      split <;> exact ⟨_, rfl⟩
    | obj props =>
      right
      simp only [jsonStringify2, serializeJSON]
      split <;> exact ⟨_, rfl⟩

/-- Claim C8, witness: the server answers with an object. -/
theorem C8_witness :
    (run (AddJob.component sampleParse)
        [.click, .textLoaded 0,
         .postFulfilled 0 { status := 200, data := .obj [("inserted", .num (JSNumber.ofNat 3))] }]
        { st := { file := some sampleJobs, loading := false, responseData := .null,
                  error := .str "" },
          pending := [], log := [] }).map (fun w => (AddJob.render w.st).result)
      = some (.element (some "\x7b\n  \"inserted\": 3\n\x7d"))
    ∧ ((JSValue.obj [("inserted", .num (JSNumber.ofNat 3))]).truthy = false
        ∨ ∃ text, jsonStringify2 (.obj [("inserted", .num (JSNumber.ofNat 3))]) = some text) :=
  C8_truthy_response_is_printed sampleParse
    { file := some sampleJobs, loading := false, responseData := .null, error := .str "" }
    sampleJobs [] (.arr [])
    { status := 200, data := .obj [("inserted", .num (JSNumber.ofNat 3))] } rfl rfl

/-- Claim C10.  In both forms `handleFileChange` sets the selected file to the first
picked file (none when the list is empty), the result to `null` and the error to the
empty string, and keeps the busy flag; and in every state reachable from the mounted
form, an event that changes the displayed result is a file selection or the fulfilment
of a request. -/
theorem C10_file_change_resets_display (jsonParse : String → Option JSValue)
    (c : Component) (hc : c = UploadResume.component ∨ c = AddJob.component jsonParse)
    (evs : List Event) (w : World) (ev : Event) (w1 : World)
    (hw : run c evs World.init = some w) (h : step c ev w = some w1) :
    (∀ files s, c.handleFileChange files s
        = { file := files.head?, loading := s.loading, responseData := .null,
            error := .str "" })
    ∧ (w1.st.responseData = w.st.responseData
        ∨ (∃ files, ev = .fileChange files)
        ∨ (∃ i response, ev = .postFulfilled i response)) := by
  have hU : ∀ s, Silent (c.handleUpload s) := by
    rcases hc with rfl | rfl
    · exact resumeUpload_silent
    · exact jobsUpload_silent jsonParse
  constructor
  · rcases hc with rfl | rfl <;> intro files s <;> rfl
  · have h0 : SilentInv World.init := by intro p hp; cases hp
    have hs := (step_silent c hU ev w w1 (run_silent c hU evs _ _ h0 hw) h).2
    cases ev with
    | fileChange files => exact Or.inr (Or.inl ⟨files, rfl⟩)
    | postFulfilled i response => exact Or.inr (Or.inr ⟨i, response, rfl⟩)
    | click => exact Or.inl (hs rfl)
    | textLoaded i => exact Or.inl (hs rfl)
    | textFailed i err => exact Or.inl (hs rfl)
    | postRejected i err => exact Or.inl (hs rfl)

/-- Claim C10, witness: in the resume form, with a result on display and a second
request in flight, the rejection of that request leaves the result as it was. -/
theorem C10_witness :
    ∃ w w1,
      run UploadResume.component
        [.fileChange [sampleResume], .click,
         .postFulfilled 0 { status := 200, data := .str "done" }, .click] World.init = some w
      ∧ step UploadResume.component (.postRejected 0 { response := none }) w = some w1
      ∧ (∀ files s, UploadResume.component.handleFileChange files s
          = { file := files.head?, loading := s.loading, responseData := .null,
              error := .str "" })
      ∧ (w1.st.responseData = w.st.responseData
          ∨ (∃ files, Event.postRejected 0 { response := none } = .fileChange files)
          ∨ (∃ i response,
              Event.postRejected 0 { response := none } = .postFulfilled i response)) :=
  ⟨_, _, rfl, rfl, C10_file_change_resets_display sampleParse UploadResume.component
    (Or.inl rfl)
    [.fileChange [sampleResume], .click,
     .postFulfilled 0 { status := 200, data := .str "done" }, .click] _
    (.postRejected 0 { response := none }) _ rfl rfl⟩

end SkillSync
